import Mathlib

/-!
Verification of the viscoturbulence simulation script (viscoturb.py):
2D incompressible hydrodynamics coupled to an Oldroyd-B polymer stress in a
log-conformation (Cholesky-factor) parametrization, integrated by an IMEX
multistep scheme with cadenced analysis output and post-run merging.

The script itself (~136 lines of Python) declares the equation system, sets
stop thresholds, wires analysis handlers and runs the time loop; the solver
engine it drives (step, solver.ok, evaluator cadence, merge) is the external
library the specification describes as the core. Definitions below are
translated from the script where the script is the authority; components the
script only calls are modelled from the specification and marked as such in
their doc comments.
-/

namespace Viscoturb

/-! ### Stress-tensor substitutions (viscoturb.py lines 59-63)

`problem.substitutions` declares U11 = exp(lU11), U22 = exp(lU22),
σ11 = U11*U11, σ12 = U11*U12, σ22 = U22*U22. -/

noncomputable def U11 (lU11 : ℝ) : ℝ := Real.exp lU11

noncomputable def U22 (lU22 : ℝ) : ℝ := Real.exp lU22

noncomputable def σ11 (lU11 : ℝ) : ℝ := U11 lU11 * U11 lU11

noncomputable def σ12 (lU11 U12 : ℝ) : ℝ := U11 lU11 * U12

noncomputable def σ22 (lU22 : ℝ) : ℝ := U22 lU22 * U22 lU22

/-- A symmetric 2x2 matrix [[a, b], [b, d]] is positive-definite iff its
leading minor a and its determinant a*d - b^2 are both positive
(equivalently, both eigenvalues are positive). -/
def posDef2x2 (a b d : ℝ) : Prop := 0 < a ∧ 0 < a * d - b ^ 2

/-! ### Declared state variables (viscoturb.py line 53) -/

def «variables» : List String := ["u", "v", "p", "lU11", "U12", "lU22"]

/-- Modelled from the spec: a Field is a named state variable bound to the
Domain (the grid/spectral representations live in the external engine);
exactly one Field is created per declared variable. -/
structure Field where
  name : String
deriving DecidableEq

/-- Modelled from the spec: the Fields created when the EquationSystem
variables are declared, one per declared variable. -/
def stateFields : List Field := «variables».map Field.mk

/-! ### Mode conditions of the pressure closure (viscoturb.py lines 73-74)

`problem.add_equation("dx(u) + dy(v) = 0", "nx != 0 or ny != 0")` and
`problem.add_equation("p = 0", "nx == 0 and ny == 0")`. -/

def condNonzeroMode (nx ny : ℤ) : Bool := decide (nx ≠ 0 ∨ ny ≠ 0)

def condZeroMode (nx ny : ℤ) : Bool := decide (nx = 0 ∧ ny = 0)

def pressureClosureConds : List (ℤ → ℤ → Bool) := [condNonzeroMode, condZeroMode]

/-- Modelled from the spec: the closure check performed by `validate()` in
the external solver library (not under src/) for one variable requiring
mode-partitioned closure — it succeeds exactly when the mode predicates of
the attached Conditions cover every wavenumber pair exactly once. -/
def validateClosure (conds : List (ℤ → ℤ → Bool)) : Prop :=
  ∀ nx ny : ℤ, conds.countP (fun c => c nx ny) = 1

/-! ### Solver state, step and stop conditions (viscoturb.py lines 87-100, 124-129) -/

structure SolverState where
  iteration : ℕ
  sim_time : ℚ
deriving DecidableEq

/-- Modelled from the spec: `solver.step(dt)` (external solver library)
advances the simulation clock by dt and the iteration counter by one; the
field updates themselves live in the external spectral engine. -/
def step (dt : ℚ) (s : SolverState) : SolverState :=
  ⟨s.iteration + 1, s.sim_time + dt⟩

/-- Modelled from the spec: a float stop threshold, `none` meaning unset /
infinite (np.inf); the loop may continue while the monitored value is
strictly below it. -/
def belowThreshold (v : ℚ) (t : Option ℚ) : Bool :=
  match t with
  | none => true
  | some t => decide (v < t)

/-- Modelled from the spec: the iteration stop threshold, `none` meaning
unset / infinite (np.inf). -/
def belowIterThreshold (i : ℕ) (t : Option ℤ) : Bool :=
  match t with
  | none => true
  | some t => decide ((i : ℤ) < t)

/-- Modelled from the spec: `solver.ok` — true exactly while elapsed wall
time, iteration and sim_time are all strictly below their thresholds. -/
def solverOk (stopWall : Option ℚ) (stopIter : Option ℤ) (stopSim : Option ℚ)
    (wallElapsed : ℚ) (s : SolverState) : Bool :=
  belowThreshold wallElapsed stopWall && belowIterThreshold s.iteration stopIter &&
    belowThreshold s.sim_time stopSim

/-- The `while solver.ok: solver.step(dt)` loop of viscoturb.py lines
126-129, with explicit fuel bounding the number of checks and an arbitrary
wall-clock reading `wall` at each check. -/
def runLoop (fuel : ℕ) (wall : ℕ → ℚ) (stopWall : Option ℚ) (stopIter : Option ℤ)
    (stopSim : Option ℚ) (dt : ℚ) (s : SolverState) : SolverState :=
  match fuel with
  | 0 => s
  | fuel + 1 =>
    if solverOk stopWall stopIter stopSim (wall s.iteration) s then
      runLoop fuel wall stopWall stopIter stopSim dt (step dt s)
    else s

/-- Threshold resolution of viscoturb.py lines 87-90 and 97-100: the Python
truthiness test `if run_opts.getfloat(...)` takes the else branch (np.inf,
here `none`) both when the option is missing (None) and when it is 0.0. -/
def resolveFloatThreshold (c : Option ℚ) : Option ℚ :=
  match c with
  | none => none
  | some v => if v = 0 then none else some v

/-- Threshold resolution of viscoturb.py lines 92-95: the Python truthiness
test `if run_opts.getint(...)` takes the else branch (np.inf, here `none`)
both when the option is missing (None) and when it is 0. -/
def resolveIntThreshold (c : Option ℤ) : Option ℤ :=
  match c with
  | none => none
  | some v => if v = 0 then none else some v

/-! ### The top-level script run (viscoturb.py lines 83-130) -/

/-- The `run` section of the config file: each stop option may be absent. -/
structure RunConfig where
  stop_wall_time : Option ℚ
  stop_iteration : Option ℤ
  stop_sim_time : Option ℚ

inductive RunOutcome
  | completed
  | nameError (nm : String)
deriving DecidableEq

structure RunTrace where
  solverBuilt : Bool
  stepsExecuted : ℕ
  outcome : RunOutcome

/-- The module-level names bound when execution reaches viscoturb.py line
104 (the first `add_file_handler` call): the imported modules of lines
11-23 and every name assigned at lines 25-103. `data_dir` is not among
them — no statement of the script assigns it. -/
def namesBoundAtAnalysis : List String :=
  ["sys", "os", "time", "logging", "pathlib", "np", "de", "post", "flow_tools",
   "ConfigParser", "docopt", "args", "mesh", "logger", "runconfig", "config_file",
   "params", "nx", "ny", "Re", "Wi", "eta", "x", "y", "domain", "variables",
   "problem", "solver", "run_opts", "analysis_tasks"]

/-- Python name resolution at module level: a name evaluates successfully
iff it is bound in the module environment; otherwise a NameError is raised. -/
def resolveName (env : List String) (nm : String) : Bool := env.contains nm

/-- The script from solver build to the end of the time loop: set the stop
thresholds from the config (lines 87-100), then construct the first
analysis handler, whose path argument evaluates `data_dir` (line 104) —
on NameError the run aborts with zero steps executed; otherwise the time
loop would run with dt = 1e-3 (lines 124-129). -/
def runScript (fuel : ℕ) (wall : ℕ → ℚ) (cfg : RunConfig) : RunTrace :=
  let stopWall := resolveFloatThreshold cfg.stop_wall_time
  let stopIter := resolveIntThreshold cfg.stop_iteration
  let stopSim := resolveFloatThreshold cfg.stop_sim_time
  if resolveName namesBoundAtAnalysis "data_dir" then
    let final := runLoop fuel wall stopWall stopIter stopSim (1 / 1000) ⟨0, 0⟩
    ⟨true, final.iteration, RunOutcome.completed⟩
  else
    ⟨true, 0, RunOutcome.nameError "data_dir"⟩

/-! ### Analysis cadence (viscoturb.py line 120) -/

/-- Modelled from the spec: an iteration-cadence handler with interval K
triggers at every observed iteration divisible by K; over a run of M total
iterations the observed iterations are 0, 1, ..., M. -/
def handlerTriggers (K M : ℕ) : List ℕ :=
  (List.range (M + 1)).filter (fun i => i % K == 0)

/-! ### Post-run merge (viscoturb.py lines 133-136) -/

/-- One record of an analysis handler, tagged with its sim_time mark and the
process shard and time segment that produced it. -/
structure SegRecord where
  time : ℕ
  shard : ℕ
  segment : ℕ
deriving DecidableEq

/-- Nondecreasing-time order on records. -/
def timeLe (a b : SegRecord) : Prop := a.time ≤ b.time

instance : DecidableRel timeLe := fun a b => inferInstanceAs (Decidable (a.time ≤ b.time))

instance : IsTotal SegRecord timeLe := ⟨fun a b => Nat.le_total a.time b.time⟩

instance : IsTrans SegRecord timeLe := ⟨fun _ _ _ h1 h2 => Nat.le_trans h1 h2⟩

/-- Modelled from the spec: `post.merge_analysis` (external library)
consolidates every process shard and time segment under one handler base
path into a single time-ordered dataset containing each record once. -/
def merge_analysis (segments : List (List SegRecord)) : List SegRecord :=
  List.insertionSort timeLe segments.flatten

/-- A synthetic run of 4 process shards, each writing 3 time segments of
one record each: 12 segment files, 12 records in total. -/
def exampleShards : List (List SegRecord) :=
  [[⟨0, 0, 0⟩], [⟨10, 0, 1⟩], [⟨20, 0, 2⟩],
   [⟨1, 1, 0⟩], [⟨11, 1, 1⟩], [⟨21, 1, 2⟩],
   [⟨2, 2, 0⟩], [⟨12, 2, 1⟩], [⟨22, 2, 2⟩],
   [⟨3, 3, 0⟩], [⟨13, 3, 1⟩], [⟨23, 3, 2⟩]]

/-- The consolidated dataset expected from `exampleShards`: all 12 records,
each once, in nondecreasing time order. -/
def exampleMerged : List SegRecord :=
  [⟨0, 0, 0⟩, ⟨1, 1, 0⟩, ⟨2, 2, 0⟩, ⟨3, 3, 0⟩,
   ⟨10, 0, 1⟩, ⟨11, 1, 1⟩, ⟨12, 2, 1⟩, ⟨13, 3, 1⟩,
   ⟨20, 0, 2⟩, ⟨21, 1, 2⟩, ⟨22, 2, 2⟩, ⟨23, 3, 2⟩]

/-! ### Timeseries tasks (viscoturb.py lines 120-122) -/

/-- Modelled from the spec: `integ` — the domain integral of a grid field,
a quadrature-weighted sum of its local grid values (the weights come from
the external spectral engine). -/
def integ (nx ny : ℕ) (w f : Fin nx → Fin ny → ℚ) : ℚ :=
  ∑ i, ∑ j, w i j * f i j

/-- The kinetic-energy timeseries task `0.5*integ(u**2 + v**2)` of
viscoturb.py line 121, named Ekin. -/
def Ekin (nx ny : ℕ) (w u v : Fin nx → Fin ny → ℚ) : ℚ :=
  (1 / 2) * integ nx ny w (fun i j => u i j ^ 2 + v i j ^ 2)

/-! ## Theorems -/

/-- C1: the claim that the substitutions of lines 59-63 yield a symmetric
positive-definite stress tensor for all finite log-factor values is false
on the code as written: at lU11 = 0, U12 = 2, lU22 = 0 the assembled tensor
is [[1, 2], [2, 1]], whose determinant σ11·σ22 − σ12² equals −3, so one
eigenvalue is negative. The substitution for σ22 omits the U12² term of the
Cholesky product L·Lᵀ, contradicting the declared Cholesky-decomposition
intent (line 77) and the positive-definiteness-by-construction property the
specification requires. -/
theorem C1_sigma_not_posdef_at_zero_two_zero :
    σ11 0 * σ22 0 - σ12 0 2 ^ 2 = -3 ∧ ¬ posDef2x2 (σ11 0) (σ12 0 2) (σ22 0) := by
  have h : σ11 0 * σ22 0 - σ12 0 2 ^ 2 = -3 := by
    simp [σ11, σ12, σ22, U11, U22, Real.exp_zero]
    norm_num
  refine ⟨h, ?_⟩
  rintro ⟨-, hdet⟩
  rw [h] at hdet
  norm_num at hdet

/-- C2: on every execution (any config, any loop fuel, any wall clock),
construction of the first analysis handler evaluates the unbound name
`data_dir`, so the run ends with a NameError after the solver is built and
before any time step executes. -/
theorem C2_data_dir_name_error (fuel : ℕ) (wall : ℕ → ℚ) (cfg : RunConfig) :
    (runScript fuel wall cfg).outcome = RunOutcome.nameError "data_dir" ∧
    (runScript fuel wall cfg).stepsExecuted = 0 ∧
    (runScript fuel wall cfg).solverBuilt = true := by
  have h : resolveName namesBoundAtAnalysis "data_dir" = false := by decide
  simp [runScript, h]

/-- C4: the spec-modelled `validate()` closure check succeeds on the two
mode conditions attached to the pressure closure (lines 73-74), because for
every integer wavenumber pair exactly one of `nx != 0 or ny != 0` and
`nx == 0 and ny == 0` holds: no mode is unclaimed and none is claimed
twice. -/
theorem C4_pressure_closure_partition :
    validateClosure pressureClosureConds ∧
    ∀ nx ny : ℤ,
      (condNonzeroMode nx ny = true ∧ condZeroMode nx ny = false) ∨
      (condNonzeroMode nx ny = false ∧ condZeroMode nx ny = true) := by
  constructor
  · intro nx ny
    by_cases hx : nx = 0 <;> by_cases hy : ny = 0 <;>
      simp [pressureClosureConds, condNonzeroMode, condZeroMode, hx, hy]
  · intro nx ny
    by_cases hx : nx = 0 <;> by_cases hy : ny = 0 <;>
      simp [condNonzeroMode, condZeroMode, hx, hy]

/-- C5: applying `step(dt)` N times from any state advances sim_time by
exactly N·dt and the iteration counter by exactly N (the model uses exact
rational arithmetic, so the statement holds exactly). -/
theorem C5_stepN_advances (N : ℕ) (dt : ℚ) (s : SolverState) :
    ((step dt)^[N] s).sim_time = s.sim_time + N * dt ∧
    ((step dt)^[N] s).iteration = s.iteration + N := by
  induction N generalizing s with
  | zero => simp
  | succ n ih =>
    rw [Function.iterate_succ_apply]
    obtain ⟨h1, h2⟩ := ih (step dt s)
    constructor
    · rw [h1]
      simp [step]
      ring
    · rw [h2]
      simp [step]
      omega

/-- C8: the equation system declares exactly the six state variables
u, v, p, lU11, U12, lU22 (two velocity components, the pressure, and the
three log-conformation/Cholesky factors), they are pairwise distinct, and
exactly one Field is created per declared variable. -/
theorem C8_six_variables_one_field_each :
    «variables» = ["u", "v", "p", "lU11", "U12", "lU22"] ∧
    «variables».length = 6 ∧
    «variables».Nodup ∧
    stateFields = «variables».map Field.mk ∧
    («variables».all fun v => stateFields.count (Field.mk v) == 1) = true := by
  refine ⟨rfl, rfl, by decide, rfl, by decide⟩

/-- C10: whenever the velocity fields u and v are both identically zero,
the kinetic-energy timeseries task `0.5*integ(u**2 + v**2)` (named Ekin,
line 121) evaluates to 0, for any grid size and quadrature weights. -/
theorem C10_Ekin_zero_for_zero_velocity (nx ny : ℕ) (w u v : Fin nx → Fin ny → ℚ)
    (hu : ∀ i j, u i j = 0) (hv : ∀ i j, v i j = 0) :
    Ekin nx ny w u v = 0 := by
  simp [Ekin, integ, hu, hv]

/-- Witness for C10: on a 1x1 grid with unit weight and zero velocity
fields, Ekin evaluates to 0. -/
theorem C10_witness :
    Ekin 1 1 (fun _ _ => 1) (fun _ _ => 0) (fun _ _ => 0) = 0 :=
  C10_Ekin_zero_for_zero_velocity 1 1 (fun _ _ => 1) (fun _ _ => 0) (fun _ _ => 0)
    (fun _ _ => rfl) (fun _ _ => rfl)

/-- With only the iteration threshold set (to n) the loop runs until the
iteration counter reaches exactly n, given enough fuel. -/
theorem runLoop_iter_stop (n : ℕ) :
    ∀ (fuel : ℕ) (wall : ℕ → ℚ) (dt : ℚ) (s : SolverState),
      s.iteration ≤ n → n ≤ s.iteration + fuel →
      (runLoop fuel wall none (some (n : ℤ)) none dt s).iteration = n := by
  intro fuel
  induction fuel with
  | zero =>
    intro wall dt s h1 h2
    simp only [runLoop]
    omega
  | succ fuel ih =>
    intro wall dt s h1 h2
    by_cases hlt : s.iteration < n
    · have hok : solverOk none (some (n : ℤ)) none (wall s.iteration) s = true := by
        simp [solverOk, belowThreshold, belowIterThreshold]
        exact_mod_cast hlt
      simp only [runLoop, hok, if_true]
      exact ih wall dt (step dt s) (by simp [step]; omega) (by simp [step]; omega)
    · have hok : solverOk none (some (n : ℤ)) none (wall s.iteration) s = false := by
        simp [solverOk, belowThreshold, belowIterThreshold]
        omega
      simp only [runLoop, hok, Bool.false_eq_true, if_false]
      omega

/-- With no threshold set the loop never halts on its own: it consumes all
its fuel, advancing the iteration counter by exactly the fuel. -/
theorem runLoop_unbounded (fuel : ℕ) :
    ∀ (wall : ℕ → ℚ) (dt : ℚ) (s : SolverState),
      (runLoop fuel wall none none none dt s).iteration = s.iteration + fuel := by
  induction fuel with
  | zero =>
    intro wall dt s
    simp [runLoop]
  | succ fuel ih =>
    intro wall dt s
    have hok : solverOk none none none (wall s.iteration) s = true := by
      simp [solverOk, belowThreshold, belowIterThreshold]
    simp only [runLoop, hok, if_true, ih, step]
    omega

/-- C3: `solver.ok` is true exactly while all three thresholds are unmet —
wall time below stop_wall_time, iteration below stop_iteration, sim_time
below stop_sim_time, an unset (`none`) threshold being unbounded — and with
stop_iteration = 5 and the other two unset, the loop from the initial state
performs exactly 5 steps, regardless of the wall-clock readings, dt, or any
surplus fuel. -/
theorem C3_stop_conditions :
    (∀ (stopWall stopSim : Option ℚ) (stopIter : Option ℤ) (w : ℚ) (s : SolverState),
        solverOk stopWall stopIter stopSim w s = true ↔
          ((∀ t, stopWall = some t → w < t) ∧
           (∀ i, stopIter = some i → (s.iteration : ℤ) < i) ∧
           (∀ t, stopSim = some t → s.sim_time < t))) ∧
    (∀ (wall : ℕ → ℚ) (dt : ℚ) (fuel : ℕ), 5 ≤ fuel →
        (runLoop fuel wall none (some 5) none dt ⟨0, 0⟩).iteration = 5) := by
  constructor
  · intro stopWall stopSim stopIter w s
    cases stopWall <;> cases stopIter <;> cases stopSim <;>
      simp [solverOk, belowThreshold, belowIterThreshold]
    tauto
  · intro wall dt fuel hfuel
    exact runLoop_iter_stop 5 fuel wall dt ⟨0, 0⟩ (by simp) (by simpa)

/-- Witness for C3: with stop_iteration = 5, fuel 5, unit dt and a frozen
wall clock, the loop performs exactly 5 steps. -/
theorem C3_witness :
    (runLoop 5 (fun _ => 0) none (some 5) none 1 ⟨0, 0⟩).iteration = 5 :=
  C3_stop_conditions.2 (fun _ => 0) 1 5 (by norm_num)

/-- C9: a stop option configured as 0 resolves to the same unbounded
threshold (np.inf, modelled `none`) as a missing option, for both the float
and the integer thresholds; consequently a run configured with all
thresholds 0 never halts on them — the loop consumes all its fuel instead
of executing zero steps. -/
theorem C9_zero_threshold_is_unset (fuel : ℕ) (wall : ℕ → ℚ) (dt : ℚ) :
    resolveFloatThreshold (some 0) = resolveFloatThreshold none ∧
    resolveIntThreshold (some 0) = resolveIntThreshold none ∧
    (runLoop fuel wall (resolveFloatThreshold (some 0)) (resolveIntThreshold (some 0))
        (resolveFloatThreshold (some 0)) dt ⟨0, 0⟩).iteration = fuel := by
  refine ⟨by simp [resolveFloatThreshold], by simp [resolveIntThreshold], ?_⟩
  have h := runLoop_unbounded fuel wall dt ⟨0, 0⟩
  simpa [resolveFloatThreshold, resolveIntThreshold] using h

/-- Over a run observing iterations 0..M, an iteration-cadence-K handler
triggers exactly M / K + 1 times. -/
theorem handlerTriggers_len (K : ℕ) :
    ∀ M, (handlerTriggers K M).length = M / K + 1 := by
  intro M
  induction M with
  | zero =>
    simp [handlerTriggers, List.range_succ, Nat.zero_mod, Nat.zero_div]
  | succ M ih =>
    have hsplit : (handlerTriggers K (M + 1)).length =
        (handlerTriggers K M).length + (if (M + 1) % K = 0 then 1 else 0) := by
      simp only [handlerTriggers, List.range_succ, List.filter_append]
      by_cases h : (M + 1) % K = 0
      · simp [h]
        omega
      · simp [h]
    have hdvd : (K ∣ M + 1) ↔ (M + 1) % K = 0 := Nat.dvd_iff_mod_eq_zero
    rw [hsplit, ih, Nat.succ_div]
    by_cases h : (M + 1) % K = 0
    · simp [h, hdvd]
    · simp [h, hdvd]

/-- C6: an iteration-cadence handler with interval K > 0 (the timeseries
handler uses K = 100), over a run of M total iterations, triggers exactly
M / K + 1 times, namely at the iterations ≤ M divisible by K; in
particular K = 100 over 250 iterations gives exactly the three trigger
iterations 0, 100, 200. -/
theorem C6_iteration_cadence (K M : ℕ) (_hK : 0 < K) :
    (handlerTriggers K M).length = M / K + 1 ∧
    (∀ i, i ∈ handlerTriggers K M ↔ i ≤ M ∧ i % K = 0) ∧
    handlerTriggers 100 250 = [0, 100, 200] := by
  refine ⟨handlerTriggers_len K M, ?_, by decide⟩
  intro i
  simp [handlerTriggers, List.mem_filter, List.mem_range, Nat.lt_succ_iff]

/-- Witness for C6: the timeseries cadence K = 100 over M = 250 iterations
triggers 250 / 100 + 1 = 3 times. -/
theorem C6_witness : (handlerTriggers 100 250).length = 250 / 100 + 1 :=
  (C6_iteration_cadence 100 250 (by norm_num)).1

/-- C7: for every collection of per-shard per-segment record lists —
including an incomplete collection left by an interrupted run — the merged
dataset is a permutation of the input records (every record appears exactly
once), is in nondecreasing time order, and merging the already-merged
dataset again returns it unchanged; on the synthetic 4-shard x 3-segment
example the 12 input records come out as the 12 distinct time-ordered
records of `exampleMerged`. -/
theorem C7_merge_exact_once_ordered_idempotent :
    (∀ segments : List (List SegRecord),
        List.Perm (merge_analysis segments) segments.flatten ∧
        List.Sorted timeLe (merge_analysis segments) ∧
        merge_analysis [merge_analysis segments] = merge_analysis segments) ∧
    merge_analysis exampleShards = exampleMerged ∧
    exampleShards.flatten.length = 12 ∧
    exampleMerged.Nodup := by
  refine ⟨?_, by decide, by decide, by decide⟩
  intro segments
  refine ⟨List.perm_insertionSort timeLe _, List.sorted_insertionSort timeLe _, ?_⟩
  show List.insertionSort timeLe ([merge_analysis segments].flatten) = merge_analysis segments
  rw [show ([merge_analysis segments] : List (List SegRecord)).flatten =
        merge_analysis segments by simp]
  exact List.Sorted.insertionSort_eq (List.sorted_insertionSort timeLe segments.flatten)

end Viscoturb
